import Mathlib

/-!
Shallow embedding of the BusFlow seat-booking subsystem.

The definitions below are translated from the repository's Python source:
  - `app/config.py`              (constants)
  - `app/models/booking.py`      (`Booking`)
  - `app/models/bus.py`          (`Bus`, `Bus.is_valid_trip`, `Bus.isActive`)
  - `app/models/user.py`         (`User`)
  - `app/services/supabase_service.py`
      (`get_bus_bookings_for_date`, `create_booking`, `cancel_booking`,
       `delete_booking`, `get_bookings_by_user`)
  - `app/controllers/booking_controller.py`
      (`get_occupied_seats`, `get_seat_layout`, `create_booking`,
       `create_multiple_bookings`, `cancel_booking`, `delete_booking`)
  - `app/controllers/bus_controller.py` (`get_active_buses`, `search_buses`)
  - `app/controllers/auth_controller.py` (`_get_expected_role`, `login`)

The persistent store is modelled as an explicit ledger (`List Booking`);
the store's `gte`/`lt` text filters are modelled by lexicographic string
comparison (`strLe`/`strLt`), which on ISO-8601 timestamp strings agrees
with timestamp order.  `datetime.now()` is modelled by an explicit clock
argument `now`; the database-assigned row id by an explicit `new_id`
argument.
-/

namespace BusFlow

/-- Lexicographic comparison of character lists by Unicode scalar value.
Models the text ordering used by the store's `gte`/`lt` filters. -/
def strLtAux : List Char → List Char → Bool
  | _, [] => false
  | [], _ :: _ => true
  | a :: as, b :: bs =>
    if a.toNat < b.toNat then true
    else if b.toNat < a.toNat then false
    else strLtAux as bs

/-- Strict lexicographic order on strings (the store's `lt` filter). -/
def strLt (a b : String) : Bool := strLtAux a.toList b.toList

/-- Lexicographic order on strings (the store's `gte` filter is `strLe dp d`). -/
def strLe (a b : String) : Bool := !(strLt b a)

/-! Constants from `app/config.py`. -/

def BOOKING_STATUS_CONFIRMED : String := "CONFIRMED"

def BOOKING_STATUS_CANCELLED : String := "CANCELLED"

def BUS_STATUS_ACTIVE : String := "ACTIVE"

def MAX_SEATS_PER_BOOKING : Nat := 5

def SEAT_ROWS : List String := ["A", "B", "C", "D", "E", "F", "G", "H", "I", "J"]

def LAST_ROW : String := "K"

def SEATS_PER_ROW : Nat := 4

def LAST_ROW_SEATS : Nat := 5

def USER_ROLE : String := "USER"

def DRIVER_ROLE : String := "DRIVER"

def ADMIN_ROLE : String := "ADMIN"

/-- A booking row, as stored in the `bookings` table and mirrored by
`app/models/booking.py` (the `created_at` display-only column is omitted:
no operation in the claims reads it). -/
structure Booking where
  id : String
  user_id : String
  bus_id : String
  seat_number : String
  source : String
  destination : String
  date : String
  price : Int
  status : String
  deriving DecidableEq, Repr

/-- The characters before the first `'T'` (all of them when no `'T'`
occurs), by structural recursion. -/
def takeUntilT : List Char → List Char
  | [] => []
  | c :: cs => if c = 'T' then [] else c :: takeUntilT cs

/-- Python `date_str.split('T')[0]`: the calendar-day part of an
ISO-8601 timestamp string (`supabase_service.py` lines 425 and 447). -/
def datePart (date_str : String) : String :=
  String.mk (takeUntilT date_str.toList)

/-- `SupabaseService.get_bus_bookings_for_date` (supabase_service.py:413):
CONFIRMED bookings of the bus whose `date` lies in the half-open window
`[day_str, day_str ++ "T23:59:59")` under text order. -/
def get_bus_bookings_for_date (ledger : List Booking) (bus_id date_str : String) :
    List Booking :=
  let day_str := datePart date_str
  ledger.filter (fun b =>
    b.bus_id == bus_id && b.status == "CONFIRMED" &&
    strLe day_str b.date && strLt b.date (day_str ++ "T23:59:59"))

/-- The `existing` query inside `SupabaseService.create_booking`
(supabase_service.py:446-454): CONFIRMED bookings of the same bus and
seat whose `date` lies in the same window as above. -/
def conflicting_bookings (ledger : List Booking) (bus_id seat_number date : String) :
    List Booking :=
  let day_str := datePart date
  ledger.filter (fun b =>
    b.bus_id == bus_id && b.seat_number == seat_number &&
    b.status == "CONFIRMED" &&
    strLe day_str b.date && strLt b.date (day_str ++ "T23:59:59"))

/-- `SupabaseService.create_booking` (supabase_service.py:435): raise
`BookingError` (modelled by `Except.error`) when the conflict query is
non-empty, otherwise insert the row and return it. -/
def service_create_booking (ledger : List Booking) (bd : Booking) :
    Except String Booking × List Booking :=
  let existing := conflicting_bookings ledger bd.bus_id bd.seat_number bd.date
  if existing ≠ [] then
    (Except.error ("Seat " ++ bd.seat_number ++ " is already booked."), ledger)
  else
    (Except.ok bd, ledger ++ [bd])

/-- `BookingController.create_booking` (booking_controller.py:132).  Note
the Python signature has no journey-date parameter: the stored `date` is
`datetime.now().isoformat()`, modelled by the explicit clock `now`; the
database-assigned id is modelled by `new_id`.  Returns the pair
`(booking or none, error message or none)` and the new ledger. -/
def controller_create_booking (ledger : List Booking) (now new_id : String)
    (user_id bus_id seat_number source destination : String) (price : Int) :
    (Option Booking × Option String) × List Booking :=
  let booking_data : Booking :=
    { id := new_id, user_id := user_id, bus_id := bus_id,
      seat_number := seat_number, source := source,
      destination := destination, date := now, price := price,
      status := BOOKING_STATUS_CONFIRMED }
  match service_create_booking ledger booking_data with
  | (Except.ok created, ledger1) => ((some created, none), ledger1)
  | (Except.error e, ledger1) => ((none, some e), ledger1)

/-- The per-seat loop of `BookingController.create_multiple_bookings`
(booking_controller.py:197-210).  `env i` supplies the clock value and
database id of the `i`-th `create_booking` call.  On success the booking
is collected, otherwise the string `"Seat {seat}: {error}"` (Python
renders a `None` error as `"None"`). -/
def create_multiple_loop (env : Nat → String × String)
    (user_id bus_id source destination : String) (price_per_seat : Int) :
    List String → List Booking → Nat → (List Booking × List String) × List Booking
  | [], ledger, _ => (([], []), ledger)
  | seat_number :: rest, ledger, i =>
    let stamp := env i
    let r := controller_create_booking ledger stamp.1 stamp.2 user_id bus_id
      seat_number source destination price_per_seat
    let restResult := create_multiple_loop env user_id bus_id source destination
      price_per_seat rest r.2 (i + 1)
    match r.1.1 with
    | some b => ((b :: restResult.1.1, restResult.1.2), restResult.2)
    | none =>
      ((restResult.1.1,
        ("Seat " ++ seat_number ++ ": " ++ (r.1.2.getD "None")) :: restResult.1.2),
       restResult.2)

/-- `BookingController.create_multiple_bookings` (booking_controller.py:170):
reject the whole batch when more than `MAX_SEATS_PER_BOOKING` seats are
requested, otherwise attempt each seat independently, collecting the
successful bookings and the per-seat error messages. -/
def create_multiple_bookings (ledger : List Booking) (env : Nat → String × String)
    (user_id bus_id : String) (seat_numbers : List String)
    (source destination : String) (price_per_seat : Int) :
    (List Booking × List String) × List Booking :=
  if seat_numbers.length > MAX_SEATS_PER_BOOKING then
    (([], ["Cannot book more than " ++ toString MAX_SEATS_PER_BOOKING ++
           " seats at once."]), ledger)
  else
    create_multiple_loop env user_id bus_id source destination price_per_seat
      seat_numbers ledger 0

/-- `BookingController.get_occupied_seats` (booking_controller.py:68):
seat labels of the bookings returned by the occupancy query (the
defaulting of a missing date to the current time is outside the model:
the claims always supply a date). -/
def get_occupied_seats (ledger : List Booking) (bus_id date_str : String) :
    List String :=
  (get_bus_bookings_for_date ledger bus_id date_str).map (fun b => b.seat_number)

/-- One entry of the seat-layout response (the dict built in
`BookingController.get_seat_layout`). -/
structure SeatEntry where
  number : String
  row : String
  position : Nat
  isOccupied : Bool
  isLastRow : Bool
  deriving DecidableEq, Repr

/-- One seat dict of `get_seat_layout`: label `f"{row}{seat_num}"`,
occupancy by membership in the occupied list. -/
def seatEntry (occ : List String) (row : String) (pos : Nat) (last : Bool) :
    SeatEntry :=
  { number := row ++ toString pos, row := row, position := pos,
    isOccupied := occ.contains (row ++ toString pos), isLastRow := last }

/-- The two nested loops of `get_seat_layout` (booking_controller.py:107-128)
building rows A..J with `SEATS_PER_ROW` seats and the last row K with
`LAST_ROW_SEATS` seats, for a given occupied list. -/
def build_seat_layout (occ : List String) : List SeatEntry :=
  (SEAT_ROWS.flatMap (fun row =>
    (List.range' 1 SEATS_PER_ROW).map (fun n => seatEntry occ row n false))) ++
  ((List.range' 1 LAST_ROW_SEATS).map (fun n => seatEntry occ LAST_ROW n true))

/-- `BookingController.get_seat_layout` (booking_controller.py:85). -/
def get_seat_layout (ledger : List Booking) (bus_id date_str : String) :
    List SeatEntry :=
  build_seat_layout (get_occupied_seats ledger bus_id date_str)

/-- `SupabaseService.get_bookings_by_user` (supabase_service.py:396): all
bookings whose `user_id` matches (the `created_at` ordering is dropped:
the controller only tests membership of ids in the result). -/
def get_bookings_by_user (ledger : List Booking) (user_id : String) :
    List Booking :=
  ledger.filter (fun b => b.user_id == user_id)

/-- `SupabaseService.cancel_booking` (supabase_service.py:468): set the
status of every row with the given id to CANCELLED and report success. -/
def service_cancel_booking (ledger : List Booking) (booking_id : String) :
    Bool × List Booking :=
  (true, ledger.map (fun b =>
    if b.id == booking_id then { b with status := "CANCELLED" } else b))

/-- `SupabaseService.delete_booking` (supabase_service.py:485): remove
every row with the given id and report success. -/
def service_delete_booking (ledger : List Booking) (booking_id : String) :
    Bool × List Booking :=
  (true, ledger.filter (fun b => !(b.id == booking_id)))

/-- `BookingController.cancel_booking` (booking_controller.py:214): reject
with a generic message when the booking id is not among the caller's own
bookings, otherwise soft-cancel. -/
def controller_cancel_booking (ledger : List Booking) (booking_id user_id : String) :
    (Bool × Option String) × List Booking :=
  let user_bookings := get_bookings_by_user ledger user_id
  let booking_ids := user_bookings.map (fun b => b.id)
  if booking_id ∉ booking_ids then
    ((false, some "Booking not found or access denied."), ledger)
  else
    let r := service_cancel_booking ledger booking_id
    if r.1 then ((true, none), r.2)
    else ((false, some "Failed to cancel booking."), r.2)

/-- `BookingController.delete_booking` (booking_controller.py:237): same
ownership check as cancel, then hard-delete. -/
def controller_delete_booking (ledger : List Booking) (booking_id user_id : String) :
    (Bool × Option String) × List Booking :=
  let user_bookings := get_bookings_by_user ledger user_id
  let booking_ids := user_bookings.map (fun b => b.id)
  if booking_id ∉ booking_ids then
    ((false, some "Booking not found or access denied."), ledger)
  else
    let r := service_delete_booking ledger booking_id
    if r.1 then ((true, none), r.2)
    else ((false, some "Failed to delete booking."), r.2)

/-- A fleet record, from `app/models/bus.py`. -/
structure Bus where
  id : String
  name : String
  route : List String
  total_seats : Nat
  driver_id : Option String
  price : Int
  status : String
  deriving DecidableEq, Repr

/-- `Bus.isActive` (bus.py:81). -/
def Bus.isActive (bus : Bus) : Bool := bus.status == BUS_STATUS_ACTIVE

/-- `Bus.is_valid_trip` (bus.py:140): both stops on the route and the
first occurrence of the source strictly before that of the destination. -/
def Bus.is_valid_trip (bus : Bus) (source destination : String) : Bool :=
  if !(bus.route.contains source) || !(bus.route.contains destination) then
    false
  else
    decide (bus.route.indexOf source < bus.route.indexOf destination)

/-- `BusController.get_active_buses` (bus_controller.py:75). -/
def get_active_buses (buses : List Bus) : List Bus :=
  buses.filter (fun bus => bus.isActive)

/-- `BusController.search_buses` (bus_controller.py:85): active buses
admitting the requested trip. -/
def search_buses (buses : List Bus) (source destination : String) : List Bus :=
  (get_active_buses buses).filter (fun bus => bus.is_valid_trip source destination)

/-- An identity record, from `app/models/user.py`. -/
structure User where
  id : String
  email : String
  name : String
  role : String
  deriving DecidableEq, Repr

/-- The `role_mapping` dict of `AuthController._get_expected_role`
(auth_controller.py:147). -/
def role_mapping : List (String × String) :=
  [("user", USER_ROLE), ("driver", DRIVER_ROLE), ("admin", ADMIN_ROLE)]

/-- Python `str.lower()` (character-wise lower-casing; the portal names
are ASCII). -/
def strToLower (s : String) : String :=
  String.mk (s.toList.map Char.toLower)

/-- `AuthController._get_expected_role` (auth_controller.py:138):
`role_mapping.get(portal_type.lower())`. -/
def get_expected_role (portal_type : String) : Option String :=
  role_mapping.lookup (strToLower portal_type)

/-- `AuthController.login` (auth_controller.py:39) after the external
authentication call, whose outcome is `auth_result` (`none` models a
failed backend login).  The role check runs only when
`_get_expected_role` produced a role. -/
def auth_login (auth_result : Option User) (portal_type : String) :
    Option User × Option String :=
  match auth_result with
  | none => (none, some "Invalid email or password.")
  | some user =>
    match get_expected_role portal_type with
    | some expected =>
      if user.role ≠ expected then
        (none, some ("Access denied. This portal is for " ++ portal_type ++ "s only."))
      else
        (some user, none)
    | none => (some user, none)

/-! Helper lemmas about the single-seat admission check. -/

/-- When the conflict query is non-empty, `create_booking` rejects with the
seat-conflict message and leaves the ledger unchanged. -/
theorem create_booking_of_conflict (ledger : List Booking)
    (now new_id user_id bus_id seat_number source destination : String) (price : Int)
    (h : conflicting_bookings ledger bus_id seat_number now ≠ []) :
    controller_create_booking ledger now new_id user_id bus_id seat_number source
      destination price =
      ((none, some ("Seat " ++ seat_number ++ " is already booked.")), ledger) := by
  simp [controller_create_booking, service_create_booking, h]

/-- When the conflict query is empty, `create_booking` appends the new
CONFIRMED booking and returns it. -/
theorem create_booking_of_free (ledger : List Booking)
    (now new_id user_id bus_id seat_number source destination : String) (price : Int)
    (h : conflicting_bookings ledger bus_id seat_number now = []) :
    controller_create_booking ledger now new_id user_id bus_id seat_number source
      destination price =
      ((some { id := new_id, user_id := user_id, bus_id := bus_id,
               seat_number := seat_number, source := source,
               destination := destination, date := now, price := price,
               status := BOOKING_STATUS_CONFIRMED }, none),
       ledger ++ [{ id := new_id, user_id := user_id, bus_id := bus_id,
                    seat_number := seat_number, source := source,
                    destination := destination, date := now, price := price,
                    status := BOOKING_STATUS_CONFIRMED }]) := by
  simp [controller_create_booking, service_create_booking, h]

/-! Claim C1. -/

/-- The ledger after a first booking of seat A1 on bus-1 dated inside the
final second of 2024-12-15. -/
def c1_state1 : List Booking :=
  (controller_create_booking [] "2024-12-15T23:59:59.500000" "bk-1" "u-1" "bus-1" "A1"
    "Uttara" "Farmgate" 50).2

/-- Claim C1: the no-double-booking invariant fails on the code even for
sequential operations.  The conflict window is the half-open interval
`[day, day ++ "T23:59:59")`, so a CONFIRMED booking whose timestamp lies
in the final second of the day is invisible to the conflict query: a
second `create_booking` for the same bus, seat and calendar day succeeds,
and the ledger then holds two CONFIRMED bookings for (bus-1, A1,
2024-12-15). -/
theorem C1_last_second_double_booking :
    (controller_create_booking [] "2024-12-15T23:59:59.500000" "bk-1" "u-1" "bus-1" "A1"
      "Uttara" "Farmgate" 50).1.1.isSome = true ∧
    (controller_create_booking c1_state1 "2024-12-15T23:59:59.800000" "bk-2" "u-2" "bus-1"
      "A1" "Uttara" "Farmgate" 50).1.1.isSome = true ∧
    ((controller_create_booking c1_state1 "2024-12-15T23:59:59.800000" "bk-2" "u-2" "bus-1"
      "A1" "Uttara" "Farmgate" 50).2.filter (fun b =>
        b.bus_id == "bus-1" && b.seat_number == "A1" && b.status == "CONFIRMED" &&
        datePart b.date == "2024-12-15")).length = 2 := by
  decide

/-! Claim C2. -/

/-- The bus of the spec's worked example: route Uttara → Banani → Farmgate. -/
def c2_bus : Bus :=
  { id := "bus-1", name := "Red Express 01",
    route := ["Uttara", "Banani", "Farmgate"], total_seats := 40,
    driver_id := none, price := 50, status := "ACTIVE" }

/-- Claim C2 counterexample: on route [Uttara, Banani, Farmgate] the trip
Farmgate → Uttara is invalid (`Bus.is_valid_trip` is false), yet
`create_booking` does not reject it: it creates a CONFIRMED booking with
exactly that source and destination, because the booking path never
consults the route. -/
theorem C2_counterexample :
    c2_bus.is_valid_trip "Farmgate" "Uttara" = false ∧
    (controller_create_booking [] "2024-12-15T10:00:00.000000" "bk-1" "u-1" c2_bus.id "A1"
      "Farmgate" "Uttara" 50).1 =
      (some { id := "bk-1", user_id := "u-1", bus_id := "bus-1", seat_number := "A1",
              source := "Farmgate", destination := "Uttara",
              date := "2024-12-15T10:00:00.000000", price := 50,
              status := "CONFIRMED" }, none) := by
  decide

/-- Claim C2, amended: `Bus.is_valid_trip` implements the ordered-pair
route check (false for Farmgate → Uttara and true for Uttara → Farmgate on
route [Uttara, Banani, Farmgate]), but `create_booking` never invokes it:
both the error component and the success of an admission attempt are
independent of the requested source and destination, so no TripInvalid
rejection exists in the booking path. -/
theorem C2_no_trip_validation :
    (∀ (ledger : List Booking)
       (now new_id user_id bus_id seat_number s1 d1 s2 d2 : String) (price : Int),
       (controller_create_booking ledger now new_id user_id bus_id seat_number s1 d1
          price).1.2 =
         (controller_create_booking ledger now new_id user_id bus_id seat_number s2 d2
            price).1.2 ∧
       (controller_create_booking ledger now new_id user_id bus_id seat_number s1 d1
          price).1.1.isSome =
         (controller_create_booking ledger now new_id user_id bus_id seat_number s2 d2
            price).1.1.isSome) ∧
    c2_bus.is_valid_trip "Farmgate" "Uttara" = false ∧
    c2_bus.is_valid_trip "Uttara" "Farmgate" = true := by
  refine ⟨?_, by decide, by decide⟩
  intro ledger now new_id user_id bus_id seat_number s1 d1 s2 d2 price
  by_cases h : conflicting_bookings ledger bus_id seat_number now = []
  · rw [create_booking_of_free ledger now new_id user_id bus_id seat_number s1 d1 price h,
      create_booking_of_free ledger now new_id user_id bus_id seat_number s2 d2 price h]
    exact ⟨rfl, rfl⟩
  · rw [create_booking_of_conflict ledger now new_id user_id bus_id seat_number s1 d1
        price h,
      create_booking_of_conflict ledger now new_id user_id bus_id seat_number s2 d2
        price h]
    exact ⟨rfl, rfl⟩

/-! Claim C3. -/

/-- Claim C3 counterexample: `create_booking` has no journey-date
parameter; the recorded date of a successful booking is the server clock
at creation time.  With the clock at 2025-01-01T10:00:00 the spec's
example request for journey date 2024-12-15 yields a booking recorded for
2025-01-01, not for any caller-supplied date. -/
theorem C3_counterexample :
    ((controller_create_booking [] "2025-01-01T10:00:00.000000" "bk-1" "u-1" "bus-1" "A1"
      "Uttara" "Farmgate" 50).1.1.map Booking.date =
        some "2025-01-01T10:00:00.000000") ∧
    datePart "2025-01-01T10:00:00.000000" ≠ "2024-12-15" := by
  decide

/-- Claim C3, amended: every successful `create_booking` returns a booking
with status CONFIRMED whose price, seat, user and bus equal the supplied
arguments, and whose recorded journey date equals the server clock at
creation time (`datetime.now()`), there being no caller-supplied date. -/
theorem C3_success_fields (ledger : List Booking)
    (now new_id user_id bus_id seat_number source destination : String) (price : Int)
    (b : Booking)
    (h : (controller_create_booking ledger now new_id user_id bus_id seat_number source
            destination price).1.1 = some b) :
    b.status = BOOKING_STATUS_CONFIRMED ∧ b.price = price ∧ b.date = now ∧
    b.seat_number = seat_number ∧ b.user_id = user_id ∧ b.bus_id = bus_id := by
  by_cases hc : conflicting_bookings ledger bus_id seat_number now = []
  · rw [create_booking_of_free ledger now new_id user_id bus_id seat_number source
        destination price hc] at h
    simp only [Option.some.injEq] at h
    subst h
    exact ⟨rfl, rfl, rfl, rfl, rfl, rfl⟩
  · rw [create_booking_of_conflict ledger now new_id user_id bus_id seat_number source
        destination price hc] at h
    simp at h

/-- The booking produced by the witness run of claim C3. -/
def c3_booking : Booking :=
  { id := "bk-1", user_id := "u-1", bus_id := "bus-1", seat_number := "A1",
    source := "Uttara", destination := "Farmgate",
    date := "2024-12-15T10:00:00.000000", price := 50, status := "CONFIRMED" }

/-- Witness for claim C3 at a concrete successful booking. -/
theorem C3_witness :
    (controller_create_booking [] "2024-12-15T10:00:00.000000" "bk-1" "u-1" "bus-1" "A1"
      "Uttara" "Farmgate" 50).1.1 = some c3_booking ∧
    (c3_booking.status = BOOKING_STATUS_CONFIRMED ∧ c3_booking.price = 50 ∧
     c3_booking.date = "2024-12-15T10:00:00.000000" ∧ c3_booking.seat_number = "A1" ∧
     c3_booking.user_id = "u-1" ∧ c3_booking.bus_id = "bus-1") :=
  ⟨by decide,
   C3_success_fields [] "2024-12-15T10:00:00.000000" "bk-1" "u-1" "bus-1" "A1" "Uttara"
     "Farmgate" 50 c3_booking (by decide)⟩

/-! Claim C4. -/

/-- A CONFIRMED booking whose timestamp lies in the final second of its
calendar day. -/
def c4_booking : Booking :=
  { id := "bk-4", user_id := "u-4", bus_id := "bus-1", seat_number := "A1",
    source := "Uttara", destination := "Farmgate",
    date := "2024-12-15T23:59:59.500000", price := 50, status := "CONFIRMED" }

/-- Claim C4 counterexample: a CONFIRMED booking for bus-1 dated inside
the final second of 2024-12-15 falls on the same calendar day as the
query date, yet `occupied_seats` omits it, because the query window is
`[day, day ++ "T23:59:59")` rather than the full calendar day. -/
theorem C4_counterexample :
    c4_booking.status = BOOKING_STATUS_CONFIRMED ∧
    c4_booking.bus_id = "bus-1" ∧
    datePart c4_booking.date = datePart "2024-12-15T10:00:00.000000" ∧
    get_occupied_seats [c4_booking] "bus-1" "2024-12-15T10:00:00.000000" = [] := by
  decide

/-- Claim C4, amended: `occupied_seats(bus, date)` returns exactly the
seat labels of the CONFIRMED bookings of that bus whose journey date lies
in the half-open text-order window from the query date's day prefix up to
but excluding `day ++ "T23:59:59"` — the calendar day of the query except
its final second.  CANCELLED bookings and bookings outside the window are
excluded. -/
theorem C4_occupied_seats_window (ledger : List Booking)
    (bus_id date_str label : String) :
    label ∈ get_occupied_seats ledger bus_id date_str ↔
      ∃ b ∈ ledger, b.bus_id = bus_id ∧ b.status = BOOKING_STATUS_CONFIRMED ∧
        strLe (datePart date_str) b.date = true ∧
        strLt b.date (datePart date_str ++ "T23:59:59") = true ∧
        b.seat_number = label := by
  constructor
  · intro hl
    simp only [get_occupied_seats, List.mem_map] at hl
    obtain ⟨b, hb, rfl⟩ := hl
    simp only [get_bus_bookings_for_date, List.mem_filter, Bool.and_eq_true,
      beq_iff_eq] at hb
    exact ⟨b, hb.1, hb.2.1.1.1, hb.2.1.1.2, hb.2.1.2, hb.2.2, rfl⟩
  · rintro ⟨b, hb, hbus, hstat, hle, hlt, hseat⟩
    simp only [get_occupied_seats, List.mem_map]
    refine ⟨b, ?_, hseat⟩
    simp [get_bus_bookings_for_date, List.mem_filter, hb, hbus, hstat, hle, hlt,
      BOOKING_STATUS_CONFIRMED] at hstat ⊢

/-- Witness for claim C4 at a concrete ledger: seat A1 is reported
occupied for a same-day CONFIRMED booking dated before the final second. -/
theorem C4_witness :
    ("A1" ∈ get_occupied_seats
        [{ c4_booking with date := "2024-12-15T10:30:00.000000" }] "bus-1"
        "2024-12-15T08:00:00.000000") ↔
      ∃ b ∈ [{ c4_booking with date := "2024-12-15T10:30:00.000000" }],
        b.bus_id = "bus-1" ∧ b.status = BOOKING_STATUS_CONFIRMED ∧
        strLe (datePart "2024-12-15T08:00:00.000000") b.date = true ∧
        strLt b.date (datePart "2024-12-15T08:00:00.000000" ++ "T23:59:59") = true ∧
        b.seat_number = "A1" :=
  C4_occupied_seats_window
    [{ c4_booking with date := "2024-12-15T10:30:00.000000" }] "bus-1"
    "2024-12-15T08:00:00.000000" "A1"

/-! Claim C5. -/

/-- The fixed label order of the 45-seat layout. -/
def c5_labels : List String :=
  ["A1", "A2", "A3", "A4", "B1", "B2", "B3", "B4", "C1", "C2", "C3", "C4",
   "D1", "D2", "D3", "D4", "E1", "E2", "E3", "E4", "F1", "F2", "F3", "F4",
   "G1", "G2", "G3", "G4", "H1", "H2", "H3", "H4", "I1", "I2", "I3", "I4",
   "J1", "J2", "J3", "J4", "K1", "K2", "K3", "K4", "K5"]

/-- Claim C5: for every bus and date, `seat_layout` returns exactly 45
entries in the fixed label order A1..A4, …, J1..J4, K1..K5; each entry is
occupied exactly when its label is among `occupied_seats(bus, date)`, and
`isLastRow` holds exactly for the K-row entries. -/
theorem C5_seat_layout (ledger : List Booking) (bus_id date_str : String) :
    (get_seat_layout ledger bus_id date_str).length = 45 ∧
    (get_seat_layout ledger bus_id date_str).map SeatEntry.number = c5_labels ∧
    ∀ e ∈ get_seat_layout ledger bus_id date_str,
      (e.isOccupied = true ↔ e.number ∈ get_occupied_seats ledger bus_id date_str) ∧
      (e.isLastRow = true ↔ e.row = LAST_ROW) := by
  have key : ∀ (occ : List String) (e : SeatEntry), e ∈ build_seat_layout occ →
      (e.isOccupied = true ↔ e.number ∈ occ) ∧ (e.isLastRow = true ↔ e.row = LAST_ROW) := by
    intro occ e he
    simp only [build_seat_layout, SEAT_ROWS, SEATS_PER_ROW, LAST_ROW_SEATS, LAST_ROW,
      List.mem_append, List.mem_flatMap, List.mem_map, List.mem_cons,
      List.not_mem_nil, or_false] at he
    rcases he with ⟨row, hrow, n, hn, rfl⟩ | ⟨n, hn, rfl⟩
    · constructor
      · simp [seatEntry]
      · have hne : row ≠ "K" := by
          rcases hrow with rfl | rfl | rfl | rfl | rfl | rfl | rfl | rfl | rfl | rfl <;>
            decide
        simp [seatEntry, LAST_ROW, hne]
    · constructor
      · simp [seatEntry]
      · simp [seatEntry, LAST_ROW]
  exact ⟨rfl, rfl, fun e he => key (get_occupied_seats ledger bus_id date_str) e he⟩

/-- Witness for claim C5 at a concrete ledger and entry. -/
theorem C5_witness :
    ((get_seat_layout [c4_booking] "bus-1" "2024-12-15T10:00:00.000000").length = 45 ∧
     (get_seat_layout [c4_booking] "bus-1" "2024-12-15T10:00:00.000000").map
        SeatEntry.number = c5_labels) ∧
    ((seatEntry [] "A" 1 false).isOccupied = true ↔
      (seatEntry [] "A" 1 false).number ∈
        get_occupied_seats [c4_booking] "bus-1" "2024-12-15T10:00:00.000000") :=
  ⟨⟨(C5_seat_layout [c4_booking] "bus-1" "2024-12-15T10:00:00.000000").1,
    (C5_seat_layout [c4_booking] "bus-1" "2024-12-15T10:00:00.000000").2.1⟩,
   ((C5_seat_layout [c4_booking] "bus-1" "2024-12-15T10:00:00.000000").2.2
      (seatEntry [] "A" 1 false) (by decide)).1⟩

/-! Claim C6. -/

/-- Claim C6: a batch of more than `MAX_SEATS_PER_BOOKING` (= 5) seats is
rejected wholesale before any seat is attempted: the result is an empty
success list with the single batch-limit message, and the ledger is
returned unchanged (the outcome does not depend on the clock or on any
seat). -/
theorem C6_batch_limit (ledger : List Booking) (env : Nat → String × String)
    (user_id bus_id source destination : String) (price_per_seat : Int)
    (seat_numbers : List String) (h : seat_numbers.length > 5) :
    create_multiple_bookings ledger env user_id bus_id seat_numbers source destination
      price_per_seat =
      (([], ["Cannot book more than 5 seats at once."]), ledger) := by
  have h5 : seat_numbers.length > MAX_SEATS_PER_BOOKING := h
  simp only [create_multiple_bookings, if_pos h5]
  rfl

/-- Witness for claim C6: a batch of six seats on an empty ledger. -/
theorem C6_witness :
    (["A1", "A2", "A3", "A4", "B1", "B2"] : List String).length > 5 ∧
    create_multiple_bookings [] (fun i => ("2024-12-15T10:00:00.00000" ++ toString i,
        "bk-" ++ toString i)) "u-1" "bus-1" ["A1", "A2", "A3", "A4", "B1", "B2"]
      "Uttara" "Farmgate" 50 =
      (([], ["Cannot book more than 5 seats at once."]), []) :=
  ⟨by decide,
   C6_batch_limit [] (fun i => ("2024-12-15T10:00:00.00000" ++ toString i,
       "bk-" ++ toString i)) "u-1" "bus-1" "Uttara" "Farmgate" 50
     ["A1", "A2", "A3", "A4", "B1", "B2"] (by decide)⟩

/-! Claim C7. -/

/-- Each iteration of the batch loop contributes exactly one success or
one error, and every successful booking is appended to the ledger and
stays there: the final ledger is the initial one extended by precisely
the successful bookings, so a later failure rolls nothing back. -/
theorem create_multiple_loop_spec (env : Nat → String × String)
    (user_id bus_id source destination : String) (price_per_seat : Int) :
    ∀ (seats : List String) (ledger : List Booking) (i : Nat),
      ((create_multiple_loop env user_id bus_id source destination price_per_seat seats
          ledger i).1.1.length +
        (create_multiple_loop env user_id bus_id source destination price_per_seat seats
          ledger i).1.2.length = seats.length) ∧
      ((create_multiple_loop env user_id bus_id source destination price_per_seat seats
          ledger i).2 =
        ledger ++ (create_multiple_loop env user_id bus_id source destination
          price_per_seat seats ledger i).1.1) := by
  intro seats
  induction seats with
  | nil => intro ledger i; simp [create_multiple_loop]
  | cons seat rest ih =>
    intro ledger i
    by_cases h : conflicting_bookings ledger bus_id seat (env i).1 = []
    · have hcb := create_booking_of_free ledger (env i).1 (env i).2 user_id bus_id seat
        source destination price_per_seat h
      have ih1 := ih (controller_create_booking ledger (env i).1 (env i).2 user_id bus_id
        seat source destination price_per_seat).2 (i + 1)
      rw [hcb] at ih1
      simp only [create_multiple_loop, hcb] at ih1 ⊢
      obtain ⟨ihlen, ihled⟩ := ih1
      constructor
      · simp only [List.length_cons]
        omega
      · rw [ihled]
        simp
    · have hcb := create_booking_of_conflict ledger (env i).1 (env i).2 user_id bus_id
        seat source destination price_per_seat h
      have ih1 := ih ledger (i + 1)
      simp only [create_multiple_loop, hcb] at ih1 ⊢
      refine ⟨?_, ih1.2⟩
      simp only [List.length_cons]
      omega

/-- The clock/id environment of the worked batch example: every call
happens inside 2024-12-15, outside its final second. -/
def c7_env : Nat → String × String :=
  fun i => ("2024-12-15T10:00:00.00000" ++ toString i, "bk-" ++ toString i)

/-- Claim C7: a batch of at most 5 seats attempts each seat independently
through the single-seat admission check; the caller receives both the
successes and the per-seat failures (one outcome per requested seat), and
nothing is rolled back — the final ledger is the initial one plus exactly
the successful bookings.  In particular the batch [A1, A1] on an empty
bus/day yields one success and one seat-conflict failure. -/
theorem C7_batch_best_effort (ledger : List Booking) (env : Nat → String × String)
    (user_id bus_id source destination : String) (price_per_seat : Int)
    (seat_numbers : List String) (h : seat_numbers.length ≤ 5) :
    ((create_multiple_bookings ledger env user_id bus_id seat_numbers source destination
        price_per_seat).1.1.length +
      (create_multiple_bookings ledger env user_id bus_id seat_numbers source destination
        price_per_seat).1.2.length = seat_numbers.length) ∧
    ((create_multiple_bookings ledger env user_id bus_id seat_numbers source destination
        price_per_seat).2 =
      ledger ++ (create_multiple_bookings ledger env user_id bus_id seat_numbers source
        destination price_per_seat).1.1) ∧
    ((create_multiple_bookings [] c7_env "u-1" "bus-1" ["A1", "A1"] "Uttara" "Farmgate"
        50).1.1.map Booking.seat_number = ["A1"]) ∧
    ((create_multiple_bookings [] c7_env "u-1" "bus-1" ["A1", "A1"] "Uttara" "Farmgate"
        50).1.2 = ["Seat A1: Seat A1 is already booked."]) := by
  have hnot : ¬ seat_numbers.length > MAX_SEATS_PER_BOOKING := by
    simp only [MAX_SEATS_PER_BOOKING]
    omega
  refine ⟨?_, ?_, by decide, by decide⟩ <;>
    simp only [create_multiple_bookings, if_neg hnot]
  · exact (create_multiple_loop_spec env user_id bus_id source destination price_per_seat
      seat_numbers ledger 0).1
  · exact (create_multiple_loop_spec env user_id bus_id source destination price_per_seat
      seat_numbers ledger 0).2

/-- Witness for claim C7 at the concrete batch [A1, A1]. -/
theorem C7_witness :
    (["A1", "A1"] : List String).length ≤ 5 ∧
    ((create_multiple_bookings [] c7_env "u-1" "bus-1" ["A1", "A1"] "Uttara" "Farmgate"
        50).1.1.length +
      (create_multiple_bookings [] c7_env "u-1" "bus-1" ["A1", "A1"] "Uttara" "Farmgate"
        50).1.2.length = (["A1", "A1"] : List String).length) :=
  ⟨by decide,
   (C7_batch_best_effort [] c7_env "u-1" "bus-1" "Uttara" "Farmgate" 50 ["A1", "A1"]
     (by decide)).1⟩

/-! Claim C8. -/

/-- Claim C8: when no booking with the requested id belongs to the
calling user — whether the booking exists under another owner or not at
all — both cancel and delete reject with the same generic message and
leave the ledger unchanged, revealing nothing about other users'
bookings. -/
theorem C8_ownership_check (ledger : List Booking) (booking_id user_id : String)
    (h : ∀ b ∈ ledger, b.id = booking_id → b.user_id ≠ user_id) :
    controller_cancel_booking ledger booking_id user_id =
      ((false, some "Booking not found or access denied."), ledger) ∧
    controller_delete_booking ledger booking_id user_id =
      ((false, some "Booking not found or access denied."), ledger) := by
  have hnot : booking_id ∉ (get_bookings_by_user ledger user_id).map
      (fun b => b.id) := by
    intro hmem
    simp only [get_bookings_by_user, List.mem_map, List.mem_filter, beq_iff_eq] at hmem
    obtain ⟨b, ⟨hb, hu⟩, hid⟩ := hmem
    exact h b hb hid hu
  constructor <;>
    simp [controller_cancel_booking, controller_delete_booking, hnot]

/-- A booking owned by user u-2, targeted by caller u-1 in the witness. -/
def c8_booking : Booking :=
  { id := "bk-8", user_id := "u-2", bus_id := "bus-1", seat_number := "A1",
    source := "Uttara", destination := "Farmgate",
    date := "2024-12-15T10:00:00.000000", price := 50, status := "CONFIRMED" }

/-- Witness for claim C8: cancelling another user's booking is rejected
with the generic message and the ledger (and the booking's status) is
unchanged. -/
theorem C8_witness :
    (∀ b ∈ [c8_booking], b.id = "bk-8" → b.user_id ≠ "u-1") ∧
    controller_cancel_booking [c8_booking] "bk-8" "u-1" =
      ((false, some "Booking not found or access denied."), [c8_booking]) :=
  ⟨by decide, (C8_ownership_check [c8_booking] "bk-8" "u-1" (by decide)).1⟩

/-! Claim C9. -/

/-- A bus under maintenance, hence not active. -/
def c9_bus : Bus :=
  { id := "bus-9", name := "Green Line 02", route := ["Uttara", "Banani", "Farmgate"],
    total_seats := 40, driver_id := none, price := 50, status := "MAINTENANCE" }

/-- Claim C9 counterexample: a MAINTENANCE bus is not active, yet
`create_booking` admits a CONFIRMED booking for its id: the booking path
never consults the bus record, so non-ACTIVE buses are bookable. -/
theorem C9_counterexample :
    c9_bus.isActive = false ∧
    (controller_create_booking [] "2024-12-15T10:00:00.000000" "bk-9" "u-9" c9_bus.id
      "A1" "Uttara" "Farmgate" 50).1.1.isSome = true := by
  decide

/-- Claim C9, amended: only ACTIVE buses are searchable — every bus
returned by `search_buses` belongs to the fleet, has status ACTIVE, and
admits the requested trip — but `create_booking` performs no bus-status
check and admits bookings for buses of any status. -/
theorem C9_search_active_only (buses : List Bus) (source destination : String) :
    ∀ bus ∈ search_buses buses source destination,
      bus.status = BUS_STATUS_ACTIVE ∧ bus.is_valid_trip source destination = true ∧
      bus ∈ buses := by
  intro bus hb
  simp only [search_buses, get_active_buses, List.mem_filter, Bus.isActive,
    beq_iff_eq] at hb
  exact ⟨hb.1.2, hb.2, hb.1.1⟩

/-- An active bus on the same route, found by the witness search. -/
def c9_active_bus : Bus :=
  { id := "bus-10", name := "Dhaka Chaka 01", route := ["Uttara", "Banani", "Farmgate"],
    total_seats := 40, driver_id := none, price := 50, status := "ACTIVE" }

/-- Witness for claim C9 at a concrete two-bus fleet. -/
theorem C9_witness :
    c9_active_bus ∈ search_buses [c9_bus, c9_active_bus] "Uttara" "Farmgate" ∧
    (c9_active_bus.status = BUS_STATUS_ACTIVE ∧
     c9_active_bus.is_valid_trip "Uttara" "Farmgate" = true ∧
     c9_active_bus ∈ [c9_bus, c9_active_bus]) :=
  ⟨by decide,
   C9_search_active_only [c9_bus, c9_active_bus] "Uttara" "Farmgate" c9_active_bus
     (by decide)⟩

/-! Claim C10. -/

/-- Claim C10: for every portal type whose lower-casing is outside
{user, driver, admin}, `login` performs no role validation at all — any
successfully authenticated user of any role is admitted; the exact
role-match check runs precisely when `_get_expected_role` knows the
portal type (mismatch is denied, match is admitted). -/
theorem C10_portal_role_check (portal_type : String) (user : User) :
    (strToLower portal_type ∉ (["user", "driver", "admin"] : List String) →
      auth_login (some user) portal_type = (some user, none)) ∧
    (∀ expected, get_expected_role portal_type = some expected →
      user.role ≠ expected →
      auth_login (some user) portal_type =
        (none, some ("Access denied. This portal is for " ++ portal_type ++
          "s only."))) ∧
    (∀ expected, get_expected_role portal_type = some expected →
      user.role = expected →
      auth_login (some user) portal_type = (some user, none)) := by
  refine ⟨?_, ?_, ?_⟩
  · intro hout
    have hnone : get_expected_role portal_type = none := by
      simp only [List.mem_cons, List.not_mem_nil, or_false] at hout
      push_neg at hout
      have h1 : (strToLower portal_type == "user") = false :=
        beq_eq_false_iff_ne.mpr hout.1
      have h2 : (strToLower portal_type == "driver") = false :=
        beq_eq_false_iff_ne.mpr hout.2.1
      have h3 : (strToLower portal_type == "admin") = false :=
        beq_eq_false_iff_ne.mpr hout.2.2
      simp [get_expected_role, role_mapping, List.lookup, h1, h2, h3]
    simp [auth_login, hnone]
  · intro expected hexp hne
    simp [auth_login, hexp, hne]
  · intro expected hexp heq
    simp [auth_login, hexp, heq]

/-- The authenticated passenger of the claim C10 witness. -/
def c10_user : User :=
  { id := "u-1", email := "alice@test.com", name := "Alice", role := "USER" }

/-- Witness for claim C10: the unknown portal type staff admits a USER
without any role check, while the driver portal denies the same user. -/
theorem C10_witness :
    (strToLower "staff" ∉ (["user", "driver", "admin"] : List String) ∧
     auth_login (some c10_user) "staff" = (some c10_user, none)) ∧
    (get_expected_role "driver" = some "DRIVER" ∧ c10_user.role ≠ "DRIVER" ∧
     auth_login (some c10_user) "driver" =
       (none, some "Access denied. This portal is for drivers only.")) :=
  ⟨⟨by decide, (C10_portal_role_check "staff" c10_user).1 (by decide)⟩,
   ⟨by decide, by decide,
    (C10_portal_role_check "driver" c10_user).2.1 "DRIVER" (by decide) (by decide)⟩⟩

end BusFlow
